import Mathlib

/-!
Verification of the `daemon` HTTP layer (request parser, response builder,
HTTP adapter) of the app_chat repository.

Python strings are embedded as `List Char`; Python `bytes` values appearing in
this code are always ASCII renderings of strings or raw file contents, and are
embedded the same way.  Python string methods (`split`, `splitlines`, `strip`,
`lower`, ...) are modelled by structural Lean functions over `List Char`,
restricted to the ASCII whitespace / case conventions (the repository only
manipulates ASCII protocol text).  Python `dict` is an insertion-ordered
association list where assignment overwrites in place.  Fallible Python code
(statements that can raise) is embedded in `Except PyError`.
-/

set_option autoImplicit false
set_option maxRecDepth 8000

abbrev Str := List Char

def str (s : String) : Str := s.data

def crlf : Str := str "\r\n"

/-- ASCII whitespace set used by Python `str.split()` / `str.strip()`. -/
def isPySpace (c : Char) : Bool :=
  c = ' ' || c = '\t' || c = '\n' || c = '\r' || c = '\x0b' || c = '\x0c'

/-- Line-break characters recognised by Python `str.splitlines` (ASCII part). -/
def isLineBreak (c : Char) : Bool :=
  c = '\n' || c = '\r' || c = '\x0b' || c = '\x0c' || c = '\x1c' || c = '\x1d' || c = '\x1e'

/-- The ASCII uppercase-to-lowercase table. -/
def upperLower : List (Char × Char) :=
  [('A', 'a'), ('B', 'b'), ('C', 'c'), ('D', 'd'), ('E', 'e'), ('F', 'f'),
   ('G', 'g'), ('H', 'h'), ('I', 'i'), ('J', 'j'), ('K', 'k'), ('L', 'l'),
   ('M', 'm'), ('N', 'n'), ('O', 'o'), ('P', 'p'), ('Q', 'q'), ('R', 'r'),
   ('S', 's'), ('T', 't'), ('U', 'u'), ('V', 'v'), ('W', 'w'), ('X', 'x'),
   ('Y', 'y'), ('Z', 'z')]

/-- ASCII model of Python `str.lower` applied to one character. -/
def lowerChar (c : Char) : Char :=
  match upperLower.find? (fun p => p.1 = c) with
  | some p => p.2
  | none => c

def lowerStr (s : Str) : Str := s.map lowerChar

/-- Cons a character onto the first piece of a split result. -/
def consHead (c : Char) : List Str → List Str
  | [] => [[c]]
  | x :: xs => (c :: x) :: xs

/-- Prepend a string onto the first piece of a split result. -/
def consMany (l : Str) : List Str → List Str
  | [] => [l]
  | x :: xs => (l ++ x) :: xs

/-- Split at every character satisfying `p` (like Python `split(sep)` for a
one-character separator: empty pieces are kept). -/
def splitOnPred (p : Char → Bool) : Str → List Str
  | [] => [[]]
  | c :: rest => if p c then [] :: splitOnPred p rest else consHead c (splitOnPred p rest)

/-- Python `str.split()` with no argument: split on whitespace runs, dropping
empty pieces. -/
def pySplitWs (s : Str) : List Str :=
  (splitOnPred isPySpace s).filter (fun x => x ≠ [])

/-- Python `str.split("\r\n")`. -/
def splitCRLF : Str → List Str
  | [] => [[]]
  | '\r' :: '\n' :: rest2 => [] :: splitCRLF rest2
  | c :: rest => consHead c (splitCRLF rest)

/-- When `pre` is a prefix of `s`, return the remainder. -/
def restAfter? : Str → Str → Option Str
  | [], s => some s
  | _ :: _, [] => none
  | a :: as, b :: bs => if b = a then restAfter? as bs else none

def startsWith (pre s : Str) : Bool := (restAfter? pre s).isSome

def endsWith (s suf : Str) : Bool := startsWith suf.reverse s.reverse

/-- Python `str.split(sep, 1)` for separator `p0 :: ps`: split at the leftmost
occurrence; `none` when the separator does not occur (Python returns the whole
string as a one-element list in that case; callers always test membership
first, which `isSome` models). -/
def splitFirst? (p0 : Char) (ps : Str) : Str → Option (Str × Str)
  | [] => none
  | c :: rest =>
    if c = p0 then
      match restAfter? ps rest with
      | some tail => some ([], tail)
      | none => (splitFirst? p0 ps rest).map (fun pr => (c :: pr.1, pr.2))
    else (splitFirst? p0 ps rest).map (fun pr => (c :: pr.1, pr.2))

/-- Python `str.strip()` (ASCII whitespace). -/
def pyStrip (s : Str) : Str :=
  ((s.dropWhile isPySpace).reverse.dropWhile isPySpace).reverse

/-- First line of a buffer: `splitlines()[0]` for a nonempty buffer. -/
def firstLine (s : Str) : Str := s.takeWhile (fun c => !isLineBreak c)

/-- Python `"sep".join` of a list of strings. -/
def joinSep (sep : Str) : List Str → Str
  | [] => []
  | [x] => x
  | x :: xs => x ++ sep ++ joinSep sep xs

def natToStr (n : Nat) : Str := (Nat.repr n).data

/-- Python `os.path.join` restricted to the two-argument form used here. -/
def osPathJoin (a b : Str) : Str :=
  if b.head? = some '/' then b
  else if a = [] then b
  else if a.getLast? = some '/' then a ++ b
  else a ++ '/' :: b

/-- Python `path.lstrip("/")`. -/
def dropSlashes (p : Str) : Str := p.dropWhile (fun c => c = '/')

/-! Python `dict` with string keys: insertion-ordered association list,
assignment overwrites in place. -/

abbrev Dict := List (Str × Str)

def dictSet (d : Dict) (k v : Str) : Dict :=
  if d.any (fun p => p.1 = k) then d.map (fun p => if p.1 = k then (k, v) else p)
  else d ++ [(k, v)]

def dictGet? (d : Dict) (k : Str) : Option Str :=
  (d.find? (fun p => p.1 = k)).map (fun p => p.2)

def dictGetD (d : Dict) (k dflt : Str) : Str := (dictGet? d k).getD dflt

/-! Embedded data model of `daemon.request` / `daemon.response` /
`daemon.httpadapter`. -/

/-- A raised Python exception, carrying its rendered message. -/
inductive PyError where
  | exc (msg : Str)
deriving DecidableEq

/-- Message of the `AttributeError` raised by `None.split(...)` in
`Request.prepare` when the request line was malformed. -/
def msg_attr_split : Str :=
  str "\x27NoneType\x27 object has no attribute \x27split\x27"

/-- Message of the `AttributeError` raised by `None.endswith(...)` in
`Response.build_response` when the request path is absent. -/
def msg_attr_endswith : Str :=
  str "\x27NoneType\x27 object has no attribute \x27endswith\x27"

/-- Result of opening and reading one file (`open(filepath, "rb")`):
successful read, `FileNotFoundError`, or any other `Exception` with its
rendered message. -/
inductive FileResult where
  | ok (buf : Str)
  | missing
  | readErr (msg : Str)
deriving DecidableEq

/-- The file system seen by `Response.build_content`. -/
abbrev FS := Str → FileResult

/-- `Response.__init__` state, restricted to the fields this code reads or
writes.  `_content` starts as Python `False`; it is modelled as the empty byte
string since every flow assigns it before it is read.  `cookies` is a
`CaseInsensitiveDict`: keys are lower-cased on assignment. -/
structure Response where
  status_code : Option Nat
  headers : Dict
  cookies : Dict
  content : Option Str
  _content : Str
deriving DecidableEq

def Response.init : Response :=
  { status_code := none, headers := [], cookies := [], content := none, _content := [] }

/-- Truthiness of `getattr(self, "content", None)`: a non-`None`, nonempty
dynamic payload. -/
def contentTruthy : Option Str → Bool
  | none => false
  | some c => c ≠ []

/-- Classification of a route hook's return value in
`HttpAdapter.handle_client`: a pre-built `Response`, a `dict` (carried with
its `str(...)` rendering), or anything else (carried with its `str(...)`
rendering). -/
inductive HookResult where
  | resp (r : Response)
  | dictVal (s : Str)
  | otherVal (s : Str)

/-- The request data a hook can observe: every `Request` attribute set by
`Request.prepare` except the matched hook itself (cut to avoid a circular
type; no handler in the repository reads `req.hook`). -/
structure RequestData where
  method : Option Str
  path : Option Str
  version : Option Str
  headers : Dict
  cookies : Dict
  body : Str

/-- A registered route handler: its `__code__.co_varnames` (for the
repository's handlers these are exactly the declared parameter names) and its
behaviour under each of the three calling conventions. -/
structure Hook where
  varnames : List Str
  onBody : Str → HookResult
  onReq : RequestData → HookResult
  onNone : Unit → HookResult

/-- Route table: insertion-ordered mapping from (method, path) to handler. -/
abbrev Routes := List ((Str × Str) × Hook)

/-- `self.routes.get((self.method, route_path))`. -/
def routesGet? (routes : Routes) (m : Option Str) (p : Str) : Option Hook :=
  (routes.find? (fun e => some e.1.1 = m ∧ e.1.2 = p)).map (fun e => e.2)

/-- Parsed request state after `Request.prepare` (minus `self.routes`, which
is only read inside `prepare` itself). -/
structure Request where
  method : Option Str
  path : Option Str
  version : Option Str
  headers : Dict
  cookies : Dict
  body : Str
  hook : Option Hook

def Request.toData (r : Request) : RequestData :=
  { method := r.method, path := r.path, version := r.version,
    headers := r.headers, cookies := r.cookies, body := r.body }

/-! Functions of `daemon/request.py`. -/

/-- `Request.extract_request_line`: split the first line into exactly three
whitespace-separated tokens, rewriting a bare "/" path to "/index.html"; any
failure (empty buffer, wrong token count) yields three `None`s. -/
def extract_request_line (request : Str) : Option Str × Option Str × Option Str :=
  if request = [] then (none, none, none)
  else
    match pySplitWs (firstLine request) with
    | [m, p, v] => (some m, some (if p = str "/" then str "/index.html" else p), some v)
    | _ => (none, none, none)

/-- One line of `Request.prepare_headers`: lines with ": " are split at its
first occurrence and stored under the lower-cased key; other lines are
ignored. -/
def header_line (hs : Dict) (line : Str) : Dict :=
  match splitFirst? ':' (str " ") line with
  | some kv => dictSet hs (lowerStr kv.1) kv.2
  | none => hs

/-- `Request.prepare_headers`. -/
def prepare_headers (request : Str) : Dict :=
  ((splitCRLF request).drop 1).foldl header_line []

/-- One ";"-separated piece of the cookie header in `Request.parse_cookies`. -/
def cookie_pair (ck : Dict) (pair : Str) : Dict :=
  if '=' ∈ pair then
    match splitFirst? '=' [] (pyStrip pair) with
    | some kv => dictSet ck kv.1 kv.2
    | none => ck
  else ck

/-- `Request.parse_cookies` over the already-parsed headers. -/
def parse_cookies (headers : Dict) : Dict :=
  (splitOnPred (fun c => c = ';') (dictGetD headers (str "cookie") [])).foldl cookie_pair []

/-- `Request.extract_body`: everything after the first blank line. -/
def extract_body (request : Str) : Str :=
  match splitFirst? '\r' (str "\n\r\n") request with
  | some pr => pr.2
  | none => []

/-- `Request.parse_form_data` over the request body. -/
def parse_form_data (body : Str) : Dict :=
  (splitOnPred (fun c => c = '&') body).foldl
    (fun f pair =>
      match splitFirst? '=' [] pair with
      | some kv => dictSet f kv.1 (kv.2.map (fun c => if c = '+' then ' ' else c))
      | none => f) []

/-- `route_path = self.path.split("?", 1)[0]`. -/
def stripQuery (path : Str) : Str :=
  match splitFirst? '?' [] path with
  | some pr => pr.1
  | none => path

/-- The route-lookup block of `Request.prepare`: skipped when the route table
is empty; raises `AttributeError` on `self.path.split` when the path is
absent. -/
def route_lookup (routes : Routes) (m : Option Str) (p : Option Str) :
    Except PyError (Option Hook) :=
  match routes with
  | [] => .ok none
  | _ :: _ =>
    match p with
    | none => .error (.exc msg_attr_split)
    | some path => .ok (routesGet? routes m (stripQuery path))

/-- `Request.prepare`: request line, route hook, headers, cookies, body. -/
def Request.prepare (request : Str) (routes : Routes) : Except PyError Request :=
  match extract_request_line request with
  | (m, p, v) =>
    (route_lookup routes m p).map (fun hook =>
      let headers := prepare_headers request
      let cookies := parse_cookies headers
      let body := if m = some (str "POST") then extract_body request else []
      { method := m, path := p, version := v, headers := headers,
        cookies := cookies, body := body, hook := hook })

/-! Functions of `daemon/response.py`. -/

/-- Module constant `BASE_DIR = ""`. -/
def BASE_DIR : Str := []

/-- `Response.set_cookie`: the serialized cookie value. -/
def cookie_string (name value path : Str) (max_age : Option Str) : Str :=
  let cookie := name ++ str "=" ++ value ++ str "; Path=" ++ path
  match max_age with
  | some m => cookie ++ str "; Max-Age=" ++ m
  | none => cookie

/-- `Response.set_cookie`: store the serialized value under the cookie name
(the `CaseInsensitiveDict` lower-cases the key). -/
def set_cookie (resp : Response) (name value path : Str) (max_age : Option Str) : Response :=
  { resp with cookies := dictSet resp.cookies (lowerStr name) (cookie_string name value path max_age) }

/-- `Response.get_mime_type`: `mimetypes.guess_type` is the environment
parameter `guess`; a `None` result, or the exception raised on a `None` path,
falls back to "application/octet-stream". -/
def get_mime_type (guess : Str → Option Str) (path : Option Str) : Str :=
  match path with
  | none => str "application/octet-stream"
  | some p => (guess p).getD (str "application/octet-stream")

/-- `Response.prepare_content_type`: set the Content-Type header and return
the base directory, or raise `ValueError` for a MIME main type outside
text/image/application (a mime string without "/" would raise the unpack
`ValueError`; no caller produces one). -/
def prepare_content_type (resp : Response) (mime_type : Str) :
    Except PyError (Response × Str) :=
  match splitFirst? '/' [] mime_type with
  | none => .error (.exc (str "not enough values to unpack (expected 2, got 1)"))
  | some ms =>
    let main := ms.1
    let sub := ms.2
    if main = str "text" then
      .ok ({ resp with headers := dictSet resp.headers (str "Content-Type") (str "text/" ++ sub) },
           BASE_DIR ++ (if sub = str "html" then str "www/" else str "static/"))
    else if main = str "image" then
      .ok ({ resp with headers := dictSet resp.headers (str "Content-Type") (str "image/" ++ sub) },
           BASE_DIR ++ str "static/")
    else if main = str "application" then
      .ok ({ resp with headers := dictSet resp.headers (str "Content-Type") (str "application/" ++ sub) },
           BASE_DIR ++ (if sub ≠ str "octet-stream" then str "apps/" else str "static/"))
    else .error (.exc (str "Invalid MIME type: " ++ main ++ str "/" ++ sub))

/-- File-path resolution of `Response.build_content`. -/
def resolve_filepath (path base_dir : Str) : Str :=
  if startsWith (str "/static/") path then dropSlashes path
  else osPathJoin base_dir (dropSlashes path)

/-- `Response.build_content`: read the resolved file; a missing file becomes
the sentinel `(0, b"File not found")`, any other failure becomes
`(0, the error text)`. -/
def build_content (fs : FS) (path base_dir : Str) : Nat × Str :=
  match fs (resolve_filepath path base_dir) with
  | .ok buf => (buf.length, buf)
  | .missing => (0, str "File not found")
  | .readErr e => (0, str "Error reading file: " ++ e)

/-- The header dict literal of `Response.build_response_header` (the `Date`
header value is the environment parameter `now`). -/
def response_header_fields (now : Str) (resp : Response) (req : Request) : Dict :=
  [(str "Accept", dictGetD req.headers (str "Accept") (str "application/json")),
   (str "Accept-Language", dictGetD req.headers (str "Accept-Language") (str "en-US,en;q=0.9")),
   (str "Authorization", dictGetD req.headers (str "Authorization") (str "Basic <credentials>")),
   (str "Cache-Control", str "no-cache"),
   (str "Content-Type", dictGetD resp.headers (str "Content-Type") (str "text/html")),
   (str "Content-Length", natToStr resp._content.length),
   (str "Date", now),
   (str "Max-Forward", str "10"),
   (str "Pragma", str "no-cache"),
   (str "Proxy-Authorization", str "Basic dXNlcjpwYXNz"),
   (str "Warning", str "199 Miscellaneous warning"),
   (str "User-Agent", dictGetD req.headers (str "User-Agent") (str "Chrome/123.0.0.0"))]

/-- The list `lines` built by `Response.build_response_header`: status line,
one line per header field, one Set-Cookie line per stored cookie, and the
final empty element. -/
def header_lines (now : Str) (resp : Response) (req : Request) : List Str :=
  (str "HTTP/1.1 200 OK" ::
    (response_header_fields now resp req).map (fun kv => kv.1 ++ str ": " ++ kv.2))
  ++ resp.cookies.map (fun kv => str "Set-Cookie: " ++ kv.2)
  ++ [[]]

/-- `Response.build_response_header`: `"\r\n".join(lines) + "\r\n"`. -/
def build_response_header (now : Str) (resp : Response) (req : Request) : Str :=
  joinSep crlf (header_lines now resp req) ++ crlf

/-- `Response.build_notfound`: the fixed 404 envelope. -/
def build_notfound : Str :=
  str "HTTP/1.1 404 Not Found\r\nAccept-Ranges: bytes\r\nContent-Type: text/html\r\nContent-Length: 13\r\nCache-Control: max-age=86000\r\nConnection: close\r\n\r\n404 Not Found"

/-- The MIME dispatch chain of `Response.build_response`: returns the
`prepare_content_type` outcome for the selected branch, or `none` when no
branch matches (the caller then returns the 404 envelope). -/
def static_branch (guess : Str → Option Str) (resp : Response) (path : Str) :
    Except PyError (Option (Response × Str)) :=
  let mime := get_mime_type guess (some path)
  if endsWith path (str ".html") || mime = str "text/html" then
    (prepare_content_type resp (str "text/html")).map some
  else if mime = str "text/css" then
    (prepare_content_type resp (str "text/css")).map some
  else if endsWith path (str ".js") || mime = str "application/javascript" || mime = str "text/javascript" then
    (prepare_content_type resp (str "application/javascript")).map some
  else if startsWith (str "image/") mime then
    (prepare_content_type resp mime).map some
  else .ok none

/-- The static-serving part of `Response.build_response` (everything after
the dynamic-content short-circuit).  Raises `AttributeError` on
`path.endswith` when the path is absent. -/
def static_serve (guess : Str → Option Str) (fs : FS) (now : Str)
    (resp : Response) (req : Request) : Except PyError (Response × Str) :=
  match req.path with
  | none => .error (.exc msg_attr_endswith)
  | some path =>
    (static_branch guess resp path).bind (fun ob =>
      match ob with
      | none => .ok (resp, build_notfound)
      | some rb =>
        let sc := build_content fs path rb.2
        let resp3 := { rb.1 with _content := sc.2 }
        if sc.1 = 0 ∧ sc.2 = str "File not found" then .ok (resp3, build_notfound)
        else .ok (resp3, build_response_header now resp3 req ++ sc.2))

/-- `Response.build_response`: dynamic-payload short-circuit, else MIME
dispatch and static serving.  Returns the mutated `Response` together with
the emitted bytes. -/
def build_response (guess : Str → Option Str) (fs : FS) (now : Str)
    (resp : Response) (req : Request) : Except PyError (Response × Str) :=
  if contentTruthy resp.content then
    match resp.content with
    | some c =>
      let resp2 := { resp with
        headers := dictSet resp.headers (str "Content-Type") (str "application/json"),
        _content := c }
      .ok (resp2, build_response_header now resp2 req ++ c)
    | none => static_serve guess fs now resp req
  else static_serve guess fs now resp req

/-! Functions of `daemon/httpadapter.py`. -/

/-- `HttpAdapter._call_hook`: choose the calling convention from the
handler's `co_varnames`. -/
def call_hook (hook : Hook) (req : Request) : HookResult :=
  if str "body" ∈ hook.varnames then hook.onBody req.body
  else if str "req" ∈ hook.varnames then hook.onReq req.toData
  else hook.onNone ()

/-- The three calling conventions of the invocation adapter. -/
inductive CallConv where
  | bodyOnly
  | fullReq
  | noArgs
deriving DecidableEq

/-- The convention `_call_hook` selects, as a function of the handler alone. -/
def call_conv (hook : Hook) : CallConv :=
  if str "body" ∈ hook.varnames then .bodyOnly
  else if str "req" ∈ hook.varnames then .fullReq
  else .noArgs

/-- Apply a fixed calling convention to a handler. -/
def apply_conv : CallConv → Hook → Request → HookResult
  | .bodyOnly, h, r => h.onBody r.body
  | .fullReq, h, r => h.onReq r.toData
  | .noArgs, h, _ => h.onNone ()

/-- The non-`Response` hook-result packet of `HttpAdapter.handle_client`:
a fixed 200 status line, the given content type, a content length, and the
`str(...)` rendering of the result as body. -/
def plain_packet (ctype body : Str) : Str :=
  str "HTTP/1.1 200 OK" ++ crlf ++ str "Content-Type: " ++ ctype ++ crlf ++
    str "Content-Length: " ++ natToStr body.length ++ crlf ++ crlf ++ body

/-- Serialization of a hook's return value in `HttpAdapter.handle_client`:
a `Response` serializes itself via `build_response`; a `dict` is wrapped as
JSON, anything else as plain text, both under a literal 200 status line. -/
def renderHookResult (guess : Str → Option Str) (fs : FS) (now : Str)
    (req : Request) : HookResult → Except PyError Str
  | .resp r => (build_response guess fs now r req).map (fun pr => pr.2)
  | .dictVal s => .ok (plain_packet (str "application/json") s)
  | .otherVal s => .ok (plain_packet (str "text/plain") s)

/-- `HttpAdapter.build_error_response`: minimal HTML error envelope. -/
def build_error_response (status_code : Nat) (message : Str) : Str :=
  let body :=
    if status_code = 401 then
      str "<html><body><h1>401 Unauthorized</h1><p>" ++ message ++
        str "</p><a href=\"/login.html\">Login Here</a></body></html>"
    else
      str "<html><body><h1>" ++ natToStr status_code ++ str " " ++ message ++
        str "</h1><p>" ++ message ++ str "</p></body></html>"
  let head :=
    str "HTTP/1.1 " ++ natToStr status_code ++ str " " ++ message ++ crlf ++
      str "Content-Type: text/html" ++ crlf ++
      str "Content-Length: " ++ natToStr body.length ++ crlf ++
      str "Connection: close" ++ crlf ++ crlf
  head ++ body

/-- `HttpAdapter.handle_login`: authenticate the fixed credential pair, set
the auth cookie, rewrite the path and serve; otherwise 401. -/
def handle_login (guess : Str → Option Str) (fs : FS) (now : Str)
    (req : Request) (resp : Response) : Except PyError Str :=
  let form := parse_form_data req.body
  let user := dictGetD form (str "username") []
  let pw := dictGetD form (str "password") []
  if user = str "admin" ∧ pw = str "password" then
    let resp := set_cookie resp (str "auth") (str "true") (str "/") none
    let resp := { resp with status_code := some 200 }
    let req := { req with path := some (str "/index.html") }
    (build_response guess fs now resp req).map (fun pr => pr.2)
  else .ok (build_error_response 401 (str "Unauthorized"))

/-- `HttpAdapter.handle_protected_route`: admit only the auth cookie, then
rewrite "/" and serve statically; otherwise 401. -/
def handle_protected_route (guess : Str → Option Str) (fs : FS) (now : Str)
    (req : Request) (resp : Response) : Except PyError Str :=
  if dictGet? req.cookies (str "auth") = some (str "true") then
    let req := if req.path = some (str "/") then { req with path := some (str "/index.html") } else req
    (build_response guess fs now resp req).map (fun pr => pr.2)
  else .ok (build_error_response 401 (str "Unauthorized - Please login first"))

/-- The body of `HttpAdapter.handle_client`'s `try` block after the raw
read: parse, then hook dispatch / login / protected route / static serving,
returning the packet to send. -/
def handle_pipeline (guess : Str → Option Str) (fs : FS) (now : Str)
    (raw : Str) (routes : Routes) : Except PyError Str :=
  (Request.prepare raw routes).bind (fun req =>
    match req.hook with
    | some hook => renderHookResult guess fs now req (call_hook hook req)
    | none =>
      if req.method = some (str "POST") ∧ req.path = some (str "/login") then
        handle_login guess fs now req Response.init
      else if req.path = some (str "/") ∨ req.path = some (str "/index.html") then
        handle_protected_route guess fs now req Response.init
      else
        (build_response guess fs now Response.init req).map (fun pr => pr.2))

/-- `HttpAdapter.handle_client`: nothing is sent when the client closed
early; otherwise the pipeline's packet, or the 500 envelope produced by the
outermost exception handler. -/
def handle_client (guess : Str → Option Str) (fs : FS) (now : Str)
    (raw : Str) (routes : Routes) : Option Str :=
  if raw = [] then none
  else
    match handle_pipeline guess fs now raw routes with
    | .ok pkt => some pkt
    | .error (.exc m) => some (build_error_response 500 (str "Internal Server Error: " ++ m))

/-! Concrete environments and fixtures used by closed theorems. -/

/-- Environment in which `mimetypes.guess_type` recognises no extension. -/
def guess0 : Str → Option Str := fun _ => none

/-- File system with no files. -/
def fs0 : FS := fun _ => .missing

/-- File system in which every read fails with a non-missing error. -/
def fsE : FS := fun _ => .readErr (str "disk error")

/-- A handler declaring no parameters and returning a fresh bare `Response`. -/
def hookRespNone : Hook :=
  { varnames := [], onBody := fun _ => .otherVal [], onReq := fun _ => .otherVal [],
    onNone := fun _ => .resp Response.init }

/-- A handler declaring a `body` parameter and echoing the body. -/
def hookBody : Hook :=
  { varnames := [str "body"], onBody := fun b => .otherVal b,
    onReq := fun _ => .otherVal [], onNone := fun _ => .otherVal [] }

/-- A handler declaring no parameters and returning a fixed mapping. -/
def hookDict : Hook :=
  { varnames := [], onBody := fun _ => .otherVal [], onReq := fun _ => .otherVal [],
    onNone := fun _ => .dictVal (str "ok") }

/-- A request with a concrete path and otherwise empty attributes. -/
def reqA : Request :=
  { method := some (str "GET"), path := some (str "/a.html"),
    version := some (str "HTTP/1.1"), headers := [], cookies := [], body := [],
    hook := none }

/-! General lemmas about the string machinery. -/

theorem takeWhile_append_all {p : Char → Bool} {l : Str} (t : Str)
    (hl : ∀ c ∈ l, p c = true) :
    List.takeWhile p (l ++ t) = l ++ List.takeWhile p t := by
  induction l with
  | nil => simp
  | cons c l ih =>
    have hc : p c = true := hl c (List.mem_cons_self c l)
    simp [List.takeWhile_cons, hc, ih (fun d hd => hl d (List.mem_cons_of_mem c hd))]

theorem firstLine_append {l : Str} (t : Str)
    (hl : ∀ c ∈ l, isLineBreak c = false) (ht : firstLine t = []) :
    firstLine (l ++ t) = l := by
  unfold firstLine at ht ⊢
  rw [takeWhile_append_all t (by intro c hc; simp [hl c hc]), ht, List.append_nil]

theorem firstLine_crlf (t : Str) : firstLine (crlf ++ t) = [] := by
  simp [crlf, str, firstLine, List.takeWhile_cons, isLineBreak]

theorem consHead_consMany (c : Char) (l : Str) (ls : List Str) :
    consHead c (consMany l ls) = consMany (c :: l) ls := by
  cases ls <;> simp [consHead, consMany]

theorem splitCRLF_ne_nil (s : Str) : splitCRLF s ≠ [] := by
  induction s using splitCRLF.induct with
  | case1 => simp [splitCRLF]
  | case2 rest ih => simp [splitCRLF]
  | case3 c rest h ih =>
    rw [splitCRLF]
    · cases hr : splitCRLF rest <;> simp [consHead]
    · exact h

theorem splitCRLF_cons_ne {c : Char} (rest : Str) (h : c ≠ '\r') :
    splitCRLF (c :: rest) = consHead c (splitCRLF rest) := by
  rw [splitCRLF]
  exact fun rest2 hc _ => h hc

theorem splitCRLF_append {l : Str} (t : Str) (hl : '\r' ∉ l) :
    splitCRLF (l ++ t) = consMany l (splitCRLF t) := by
  induction l with
  | nil =>
    cases hr : splitCRLF t with
    | nil => exact absurd hr (splitCRLF_ne_nil t)
    | cons x xs => simp [consMany, hr]
  | cons c l ih =>
    have hc : c ≠ '\r' := fun hc => hl (hc ▸ List.mem_cons_self c l)
    rw [List.cons_append, splitCRLF_cons_ne _ hc,
      ih (fun hm => hl (List.mem_cons_of_mem c hm)), consHead_consMany]

theorem splitFirst?_cons_ne {c p0 : Char} (ps rest : Str) (h : c ≠ p0) :
    splitFirst? p0 ps (c :: rest) =
      (splitFirst? p0 ps rest).map (fun pr => (c :: pr.1, pr.2)) := by
  simp [splitFirst?, h]

theorem splitFirst?_append {p0 : Char} {l : Str} (ps t : Str) (hl : p0 ∉ l) :
    splitFirst? p0 ps (l ++ t) =
      (splitFirst? p0 ps t).map (fun pr => (l ++ pr.1, pr.2)) := by
  induction l with
  | nil =>
    rw [List.nil_append]
    cases hx : splitFirst? p0 ps t <;> simp [hx]
  | cons c l ih =>
    have hc : c ≠ p0 := fun hc => hl (hc ▸ List.mem_cons_self c l)
    rw [List.cons_append, splitFirst?_cons_ne _ _ hc,
      ih (fun hm => hl (List.mem_cons_of_mem c hm))]
    cases splitFirst? p0 ps t <;> simp

theorem splitOnPred_ne_nil (p : Char → Bool) (s : Str) : splitOnPred p s ≠ [] := by
  induction s with
  | nil => simp [splitOnPred]
  | cons c rest ih =>
    by_cases hp : p c
    · simp [splitOnPred, hp]
    · cases hr : splitOnPred p rest <;> simp [splitOnPred, hp, hr, consHead]

theorem splitOnPred_append {p : Char → Bool} {l : Str} (t : Str)
    (hl : ∀ c ∈ l, p c = false) :
    splitOnPred p (l ++ t) = consMany l (splitOnPred p t) := by
  induction l with
  | nil =>
    cases hr : splitOnPred p t with
    | nil => exact absurd hr (splitOnPred_ne_nil p t)
    | cons x xs => simp [consMany, hr]
  | cons c l ih =>
    have hc : p c = false := hl c (List.mem_cons_self c l)
    rw [List.cons_append, splitOnPred, if_neg (by simp [hc]),
      ih (fun d hd => hl d (List.mem_cons_of_mem c hd)), consHead_consMany]

theorem joinSep_cons (sep x : Str) {xs : List Str} (h : xs ≠ []) :
    joinSep sep (x :: xs) = x ++ sep ++ joinSep sep xs := by
  cases xs with
  | nil => exact absurd rfl h
  | cons y ys => rfl

theorem firstLine_status (rest : Str) :
    firstLine (str "HTTP/1.1 200 OK" ++ (crlf ++ rest)) = str "HTTP/1.1 200 OK" :=
  firstLine_append _ (by decide) (firstLine_crlf rest)

theorem header_lines_tail_ne_nil (now : Str) (resp : Response) (req : Request) :
    ((response_header_fields now resp req).map (fun kv => kv.1 ++ str ": " ++ kv.2))
      ++ resp.cookies.map (fun kv => str "Set-Cookie: " ++ kv.2) ++ [[]] ≠ ([] : List Str) := by
  simp

theorem header_lines_eq (now : Str) (resp : Response) (req : Request) :
    header_lines now resp req = str "HTTP/1.1 200 OK" ::
      ((response_header_fields now resp req).map (fun kv => kv.1 ++ str ": " ++ kv.2)
        ++ resp.cookies.map (fun kv => str "Set-Cookie: " ++ kv.2) ++ [[]]) := by
  unfold header_lines
  simp

theorem firstLine_header (now : Str) (resp : Response) (req : Request) (t : Str) :
    firstLine (build_response_header now resp req ++ t) = str "HTTP/1.1 200 OK" := by
  unfold build_response_header
  rw [header_lines_eq, joinSep_cons _ _ (header_lines_tail_ne_nil now resp req)]
  rw [show str "HTTP/1.1 200 OK" ++ crlf ++
      joinSep crlf ((response_header_fields now resp req).map (fun kv => kv.1 ++ str ": " ++ kv.2)
        ++ resp.cookies.map (fun kv => str "Set-Cookie: " ++ kv.2) ++ [[]]) ++ crlf ++ t =
    str "HTTP/1.1 200 OK" ++ (crlf ++
      (joinSep crlf ((response_header_fields now resp req).map (fun kv => kv.1 ++ str ": " ++ kv.2)
        ++ resp.cookies.map (fun kv => str "Set-Cookie: " ++ kv.2) ++ [[]]) ++ (crlf ++ t)))
    from by simp [List.append_assoc]]
  exact firstLine_status _

theorem firstLine_plain_packet (ctype body : Str) :
    firstLine (plain_packet ctype body) = str "HTTP/1.1 200 OK" := by
  unfold plain_packet
  rw [show str "HTTP/1.1 200 OK" ++ crlf ++ str "Content-Type: " ++ ctype ++ crlf ++
      str "Content-Length: " ++ natToStr body.length ++ crlf ++ crlf ++ body =
    str "HTTP/1.1 200 OK" ++ (crlf ++ (str "Content-Type: " ++ ctype ++ crlf ++
      str "Content-Length: " ++ natToStr body.length ++ crlf ++ crlf ++ body))
    from by simp [List.append_assoc]]
  exact firstLine_status _

theorem lowerChar_ne_upper (c : Char) : lowerChar c ≠ 'A' ∧ lowerChar c ≠ 'U' := by
  unfold lowerChar
  cases hf : upperLower.find? (fun p => p.1 = c) with
  | none =>
    have hA := List.find?_eq_none.mp hf ('A', 'a') (by decide)
    have hU := List.find?_eq_none.mp hf ('U', 'u') (by decide)
    simp at hA hU
    constructor <;> intro h <;> simp at h <;> simp [h] at hA hU
  | some p =>
    have hmem := List.mem_of_find?_eq_some hf
    have hlow : ∀ q ∈ upperLower, q.2 ≠ 'A' ∧ q.2 ≠ 'U' := by decide
    exact hlow p hmem

theorem dictSet_mem {d : Dict} {k v : Str} {p : Str × Str} (hp : p ∈ dictSet d k v) :
    p = (k, v) ∨ p ∈ d := by
  unfold dictSet at hp
  by_cases h : d.any (fun q => q.1 = k)
  · rw [if_pos h] at hp
    rcases List.mem_map.mp hp with ⟨q, hq, hfq⟩
    by_cases hk : q.1 = k
    · left; rw [← hfq]; simp [hk]
    · right; rw [← hfq]; simp [hk]; exact hq
  · rw [if_neg h] at hp
    rcases List.mem_append.mp hp with h1 | h1
    · right; exact h1
    · left; simpa using h1

theorem prepare_headers_keys (raw : Str) :
    ∀ p ∈ prepare_headers raw, ∃ k0, p.1 = lowerStr k0 := by
  unfold prepare_headers
  generalize (splitCRLF raw).drop 1 = lines
  have main : ∀ (d : Dict), (∀ p ∈ d, ∃ k0, p.1 = lowerStr k0) →
      ∀ p ∈ lines.foldl header_line d, ∃ k0, p.1 = lowerStr k0 := by
    induction lines with
    | nil => intro d hd; simpa using hd
    | cons line ls ih =>
      intro d hd
      rw [List.foldl_cons]
      refine ih _ ?_
      intro p hp
      unfold header_line at hp
      cases hsp : splitFirst? ':' (str " ") line with
      | none => rw [hsp] at hp; exact hd p hp
      | some kv =>
        rw [hsp] at hp
        rcases dictSet_mem hp with h | h
        · exact ⟨kv.1, by rw [h]⟩
        · exact hd p h
  exact main [] (by simp)

theorem dictGet?_eq_none {d : Dict} {K : Str}
    (h : ∀ p ∈ d, p.1 ≠ K) : dictGet? d K = none := by
  unfold dictGet?
  rw [List.find?_eq_none.mpr (fun p hp => by simpa using h p hp)]
  rfl

theorem prepare_headers_upper_none (raw K : Str)
    (hK : K.head? = some 'A' ∨ K.head? = some 'U') :
    dictGet? (prepare_headers raw) K = none := by
  apply dictGet?_eq_none
  intro p hp hpK
  rcases prepare_headers_keys raw p hp with ⟨k0, hk0⟩
  rw [hpK] at hk0
  cases k0 with
  | nil => rw [hk0] at hK; simp [lowerStr] at hK
  | cons c k0' =>
    have hhead : K.head? = some (lowerChar c) := by rw [hk0]; simp [lowerStr]
    rcases hK with h | h <;> rw [hhead] at h <;> simp at h
    · exact (lowerChar_ne_upper c).1 h
    · exact (lowerChar_ne_upper c).2 h

theorem splitFirst?_single {c0 : Char} {l : Str} (t : Str) (hl : c0 ∉ l) :
    splitFirst? c0 [] (l ++ c0 :: t) = some (l, t) := by
  rw [splitFirst?_append [] (c0 :: t) hl]
  simp [splitFirst?, restAfter?]

/-! Claim theorems. -/

/-- Claim C4: the invocation adapter selects exactly one calling convention
from the handler's declared parameter names alone — body text only if a
parameter named "body" is declared, else the full request if one named "req"
is declared, else no arguments — independently of the request's content, and
the body-only call passes the parsed body text unchanged. -/
theorem call_hook_convention (h : Hook) (r : Request) :
    call_hook h r = apply_conv (call_conv h) h r ∧
    (str "body" ∈ h.varnames → call_hook h r = h.onBody r.body) ∧
    (str "body" ∉ h.varnames → str "req" ∈ h.varnames → call_hook h r = h.onReq r.toData) ∧
    (str "body" ∉ h.varnames → str "req" ∉ h.varnames → call_hook h r = h.onNone ()) := by
  by_cases hb : str "body" ∈ h.varnames <;> by_cases hq : str "req" ∈ h.varnames <;>
    simp [call_hook, call_conv, apply_conv, hb, hq]

theorem call_hook_convention_witness :
    str "body" ∈ hookBody.varnames ∧
    call_hook hookBody reqA = hookBody.onBody reqA.body :=
  ⟨by decide, (call_hook_convention hookBody reqA).2.1 (by decide)⟩

/-- Claim C5 (amended): the base-directory classification maps text/html to
"www/", any other text type (css included) to "static/", image types to
"static/", and application types to "apps/" except application/octet-stream,
which maps to "static/" — so javascript, dispatched as
application/javascript, maps to "apps/", not "static/"; a MIME main type
outside this closed set is a `ValueError` at this layer, not a 404
response. -/
theorem prepare_content_type_classification (resp : Response) (sub main : Str) :
    (prepare_content_type resp (str "text/" ++ sub)).map (fun pr => pr.2) =
      .ok (if sub = str "html" then str "www/" else str "static/") ∧
    (prepare_content_type resp (str "image/" ++ sub)).map (fun pr => pr.2) =
      .ok (str "static/") ∧
    (prepare_content_type resp (str "application/" ++ sub)).map (fun pr => pr.2) =
      .ok (if sub ≠ str "octet-stream" then str "apps/" else str "static/") ∧
    (prepare_content_type resp (str "application/javascript")).map (fun pr => pr.2) =
      .ok (str "apps/") ∧
    ('/' ∉ main → main ≠ str "text" → main ≠ str "image" → main ≠ str "application" →
      prepare_content_type resp (main ++ '/' :: sub) =
        .error (.exc (str "Invalid MIME type: " ++ main ++ str "/" ++ sub))) := by
  have hit : str "image" ≠ str "text" := by decide
  have hat : str "application" ≠ str "text" := by decide
  have hai : str "application" ≠ str "image" := by decide
  refine ⟨?_, ?_, ?_, ?_, ?_⟩
  · rw [show str "text/" ++ sub = str "text" ++ '/' :: sub from rfl]
    unfold prepare_content_type
    rw [splitFirst?_single sub (by decide)]
    by_cases hs : sub = str "html" <;> simp [Except.map, BASE_DIR, hs]
  · rw [show str "image/" ++ sub = str "image" ++ '/' :: sub from rfl]
    unfold prepare_content_type
    rw [splitFirst?_single sub (by decide)]
    simp [Except.map, BASE_DIR, hit]
  · rw [show str "application/" ++ sub = str "application" ++ '/' :: sub from rfl]
    unfold prepare_content_type
    rw [splitFirst?_single sub (by decide)]
    by_cases hs : sub = str "octet-stream" <;> simp [Except.map, BASE_DIR, hat, hai, hs]
  · rw [show str "application/javascript" = str "application" ++ '/' :: str "javascript" from rfl]
    unfold prepare_content_type
    rw [splitFirst?_single (str "javascript") (by decide)]
    simp [Except.map, BASE_DIR, hat, hai, show str "javascript" ≠ str "octet-stream" from by decide]
  · intro hm ht hi ha
    unfold prepare_content_type
    rw [splitFirst?_single sub hm]
    simp [ht, hi, ha]

theorem prepare_content_type_classification_witness :
    ('/' ∉ str "audio") ∧
    prepare_content_type Response.init (str "audio" ++ '/' :: str "mpeg") =
      .error (.exc (str "Invalid MIME type: " ++ str "audio" ++ str "/" ++ str "mpeg")) :=
  ⟨by decide,
    (prepare_content_type_classification Response.init (str "mpeg") (str "audio")).2.2.2.2
      (by decide) (by decide) (by decide) (by decide)⟩

/-- Claim C5, refuted as stated: javascript is dispatched to
`prepare_content_type` as "application/javascript", which classifies under
the application branch into base directory "apps/", not "static/". -/
theorem javascript_base_dir_counterexample :
    (prepare_content_type Response.init (str "application/javascript")).map (fun pr => pr.2) =
      .ok (str "apps/") ∧ str "apps/" ≠ str "static/" :=
  ⟨rfl, by decide⟩

/-- Claim C6: a static request whose resolved file does not exist first
produces the internal sentinel body "File not found", which the subsequent
check converts into the fixed 404 envelope: status line 404, literal body
"404 Not Found", and a Content-Length header of 13. -/
theorem build_response_missing_file (guess : Str → Option Str) (fs : FS) (now : Str)
    (resp : Response) (req : Request) (path base : Str) (resp2 : Response)
    (hc : contentTruthy resp.content = false)
    (hp : req.path = some path)
    (hb : static_branch guess resp path = .ok (some (resp2, base)))
    (hfs : fs (resolve_filepath path base) = .missing) :
    build_content fs path base = (0, str "File not found") ∧
    build_response guess fs now resp req =
      .ok ({ resp2 with _content := str "File not found" }, build_notfound) ∧
    firstLine build_notfound = str "HTTP/1.1 404 Not Found" ∧
    extract_body build_notfound = str "404 Not Found" ∧
    (str "Content-Length: 13") ∈ splitCRLF build_notfound := by
  have hbc : build_content fs path base = (0, str "File not found") := by
    unfold build_content
    rw [hfs]
  refine ⟨hbc, ?_, by decide, by decide, by decide⟩
  unfold build_response
  rw [hc]
  unfold static_serve
  rw [hp]
  simp only [Bool.false_eq_true, if_false]
  rw [hb]
  simp [Except.bind, hbc]

theorem build_response_missing_file_witness :
    contentTruthy Response.init.content = false ∧
    reqA.path = some (str "/a.html") ∧
    static_branch guess0 Response.init (str "/a.html") =
      .ok (some ({ Response.init with headers := [(str "Content-Type", str "text/html")] }, str "www/")) ∧
    fs0 (resolve_filepath (str "/a.html") (str "www/")) = .missing ∧
    (build_content fs0 (str "/a.html") (str "www/") = (0, str "File not found") ∧
      build_response guess0 fs0 [] Response.init reqA =
        .ok ({ { Response.init with headers := [(str "Content-Type", str "text/html")] } with
                _content := str "File not found" }, build_notfound) ∧
      firstLine build_notfound = str "HTTP/1.1 404 Not Found" ∧
      extract_body build_notfound = str "404 Not Found" ∧
      (str "Content-Length: 13") ∈ splitCRLF build_notfound) :=
  ⟨rfl, rfl, rfl, rfl,
    build_response_missing_file guess0 fs0 [] Response.init reqA (str "/a.html") (str "www/")
      { Response.init with headers := [(str "Content-Type", str "text/html")] }
      rfl rfl rfl rfl⟩

/-- Claim C7: a static file read that fails for any reason other than the
file being missing is not converted into an error status — the response is
still emitted under the pending status (the fixed 200 status line of the
header builder) with the textual error message embedded as the response
body. -/
theorem build_response_read_error (guess : Str → Option Str) (fs : FS) (now : Str)
    (resp : Response) (req : Request) (path base e : Str) (resp2 : Response)
    (hc : contentTruthy resp.content = false)
    (hp : req.path = some path)
    (hb : static_branch guess resp path = .ok (some (resp2, base)))
    (hfs : fs (resolve_filepath path base) = .readErr e) :
    build_response guess fs now resp req =
      .ok ({ resp2 with _content := str "Error reading file: " ++ e },
        build_response_header now { resp2 with _content := str "Error reading file: " ++ e } req
          ++ (str "Error reading file: " ++ e)) ∧
    firstLine
      (build_response_header now { resp2 with _content := str "Error reading file: " ++ e } req
        ++ (str "Error reading file: " ++ e)) = str "HTTP/1.1 200 OK" := by
  have hbc : build_content fs path base = (0, str "Error reading file: " ++ e) := by
    unfold build_content
    rw [hfs]
  have hne : ¬(str "Error reading file: " ++ e = str "File not found") := by
    intro h
    have hl := congrArg List.length h
    simp [str] at hl
  refine ⟨?_, firstLine_header now _ req _⟩
  unfold build_response
  rw [hc]
  unfold static_serve
  rw [hp]
  simp only [Bool.false_eq_true, if_false]
  rw [hb]
  simp [Except.bind, hbc, hne]

theorem build_response_read_error_witness :
    contentTruthy Response.init.content = false ∧
    reqA.path = some (str "/a.html") ∧
    static_branch guess0 Response.init (str "/a.html") =
      .ok (some ({ Response.init with headers := [(str "Content-Type", str "text/html")] }, str "www/")) ∧
    fsE (resolve_filepath (str "/a.html") (str "www/")) = .readErr (str "disk error") ∧
    (build_response guess0 fsE [] Response.init reqA =
      .ok ({ { Response.init with headers := [(str "Content-Type", str "text/html")] } with
              _content := str "Error reading file: " ++ str "disk error" },
        build_response_header []
          { { Response.init with headers := [(str "Content-Type", str "text/html")] } with
              _content := str "Error reading file: " ++ str "disk error" } reqA
          ++ (str "Error reading file: " ++ str "disk error")) ∧
      firstLine
        (build_response_header []
          { { Response.init with headers := [(str "Content-Type", str "text/html")] } with
              _content := str "Error reading file: " ++ str "disk error" } reqA
          ++ (str "Error reading file: " ++ str "disk error")) = str "HTTP/1.1 200 OK") :=
  ⟨rfl, rfl, rfl, rfl,
    build_response_read_error guess0 fsE [] Response.init reqA (str "/a.html") (str "www/")
      (str "disk error")
      { Response.init with headers := [(str "Content-Type", str "text/html")] }
      rfl rfl rfl rfl⟩

/-- Claim C3 (amended): a hook result that is a mapping, any other
non-`Response` value, or a pre-built `Response` carrying non-empty dynamic
content is always emitted under the fixed status line "HTTP/1.1 200 OK"; a
pre-built `Response` without dynamic content instead falls into the static
chain, which may emit the 404 envelope. -/
theorem hook_result_status_line (guess : Str → Option Str) (fs : FS) (now : Str)
    (req : Request) (res : HookResult) (pkt : Str)
    (hsafe : match res with | .resp r => contentTruthy r.content = true | _ => True)
    (hr : renderHookResult guess fs now req res = .ok pkt) :
    firstLine pkt = str "HTTP/1.1 200 OK" := by
  cases res with
  | dictVal s =>
    unfold renderHookResult at hr
    simp only [Except.ok.injEq] at hr
    rw [← hr]
    exact firstLine_plain_packet _ _
  | otherVal s =>
    unfold renderHookResult at hr
    simp only [Except.ok.injEq] at hr
    rw [← hr]
    exact firstLine_plain_packet _ _
  | resp r =>
    unfold renderHookResult build_response at hr
    simp only [] at hsafe hr
    rw [hsafe] at hr
    cases hcon : r.content with
    | none => rw [hcon] at hsafe; simp [contentTruthy] at hsafe
    | some c =>
      rw [hcon] at hr
      simp only [if_true, Except.map, Except.ok.injEq] at hr
      rw [← hr]
      exact firstLine_header now _ req _

theorem hook_result_status_line_witness :
    renderHookResult guess0 fs0 [] reqA (HookResult.dictVal (str "ok")) =
      .ok (plain_packet (str "application/json") (str "ok")) ∧
    firstLine (plain_packet (str "application/json") (str "ok")) = str "HTTP/1.1 200 OK" :=
  ⟨rfl,
    hook_result_status_line guess0 fs0 [] reqA (HookResult.dictVal (str "ok"))
      (plain_packet (str "application/json") (str "ok")) trivial rfl⟩

/-- Claim C3, refuted as stated: a hook that returns a pre-built `Response`
without dynamic content sends the request into the static chain; for a path
with no recognised MIME branch the emitted packet is the 404 envelope, whose
status line is not "HTTP/1.1 200 OK". -/
theorem hook_response_emits_404_counterexample :
    handle_client guess0 fs0 [] (str "GET /foo HTTP/1.1\r\n\r\n")
      [((str "GET", str "/foo"), hookRespNone)] = some build_notfound ∧
    firstLine build_notfound = str "HTTP/1.1 404 Not Found" ∧
    str "HTTP/1.1 404 Not Found" ≠ str "HTTP/1.1 200 OK" :=
  ⟨rfl, by decide, by decide⟩

/-- Claim C2 (amended): for every request whose headers were produced by the
request parser, the assembled response header block uses the literal fallback
defaults for Accept, Accept-Language, Authorization and User-Agent — the
parser stores header names lower-cased while the assembler looks the four
names up mixed-case in a plain dict, so the client's values are never echoed
back. -/
theorem response_header_fields_defaults (now : Str) (resp : Response) (req : Request)
    (raw : Str) (h : req.headers = prepare_headers raw) :
    response_header_fields now resp req =
      [(str "Accept", str "application/json"),
       (str "Accept-Language", str "en-US,en;q=0.9"),
       (str "Authorization", str "Basic <credentials>"),
       (str "Cache-Control", str "no-cache"),
       (str "Content-Type", dictGetD resp.headers (str "Content-Type") (str "text/html")),
       (str "Content-Length", natToStr resp._content.length),
       (str "Date", now),
       (str "Max-Forward", str "10"),
       (str "Pragma", str "no-cache"),
       (str "Proxy-Authorization", str "Basic dXNlcjpwYXNz"),
       (str "Warning", str "199 Miscellaneous warning"),
       (str "User-Agent", str "Chrome/123.0.0.0")] := by
  unfold response_header_fields
  rw [show dictGetD req.headers (str "Accept") (str "application/json") = str "application/json" from by
      rw [dictGetD, h, prepare_headers_upper_none raw _ (Or.inl (by decide))]; rfl,
    show dictGetD req.headers (str "Accept-Language") (str "en-US,en;q=0.9") = str "en-US,en;q=0.9" from by
      rw [dictGetD, h, prepare_headers_upper_none raw _ (Or.inl (by decide))]; rfl,
    show dictGetD req.headers (str "Authorization") (str "Basic <credentials>") = str "Basic <credentials>" from by
      rw [dictGetD, h, prepare_headers_upper_none raw _ (Or.inl (by decide))]; rfl,
    show dictGetD req.headers (str "User-Agent") (str "Chrome/123.0.0.0") = str "Chrome/123.0.0.0" from by
      rw [dictGetD, h, prepare_headers_upper_none raw _ (Or.inr (by decide))]; rfl]

/-- Raw request carrying a capitalized Accept header. -/
def rawC2 : Str := str "GET /x.html HTTP/1.1\r\nAccept: text/plain\r\n\r\n"

/-- Request parsed from `rawC2` by the parser pipeline. -/
def reqC2 : Request :=
  { method := some (str "GET"), path := some (str "/x.html"),
    version := some (str "HTTP/1.1"), headers := prepare_headers rawC2,
    cookies := [], body := [], hook := none }

theorem response_header_fields_defaults_witness :
    reqC2.headers = prepare_headers rawC2 ∧
    response_header_fields [] Response.init reqC2 =
      [(str "Accept", str "application/json"),
       (str "Accept-Language", str "en-US,en;q=0.9"),
       (str "Authorization", str "Basic <credentials>"),
       (str "Cache-Control", str "no-cache"),
       (str "Content-Type", dictGetD Response.init.headers (str "Content-Type") (str "text/html")),
       (str "Content-Length", natToStr Response.init._content.length),
       (str "Date", []),
       (str "Max-Forward", str "10"),
       (str "Pragma", str "no-cache"),
       (str "Proxy-Authorization", str "Basic dXNlcjpwYXNz"),
       (str "Warning", str "199 Miscellaneous warning"),
       (str "User-Agent", str "Chrome/123.0.0.0")] :=
  ⟨rfl, response_header_fields_defaults [] Response.init reqC2 rawC2 rfl⟩

/-- Claim C2, refuted as stated: the client sent "Accept: text/plain" (stored
lower-cased by the parser), yet the assembled header block carries the
fallback default "application/json" instead of echoing the client's value. -/
theorem response_header_echo_counterexample :
    (Request.prepare rawC2 []).map (fun r => dictGet? r.headers (str "accept")) =
      .ok (some (str "text/plain")) ∧
    (Request.prepare rawC2 []).map
        (fun r => dictGet? (response_header_fields [] Response.init r) (str "Accept")) =
      .ok (some (str "application/json")) ∧
    (Request.prepare rawC2 []).map
        (fun r => decide ((str "Accept: application/json") ∈ splitCRLF (build_response_header [] Response.init r))) =
      .ok true :=
  ⟨rfl, rfl, rfl⟩

/-- Claim C8 (amended): serializing a cookie with the cookie-set operation
(path "/") and parsing the serialized string through the request cookie
parser yields the original name bound to the original value, provided the
name contains no "=" or ";", is not "Path", and the concatenated
name-equals-value string is whitespace-trim invariant, and the value
contains no ";".  (Outside these conditions the round trip fails, see the
counterexample.) -/
theorem cookie_roundtrip (name value : Str)
    (hne : '=' ∉ name) (hns : ';' ∉ name) (hvs : ';' ∉ value)
    (hnP : name ≠ str "Path")
    (hstrip : pyStrip (name ++ '=' :: value) = name ++ '=' :: value) :
    (set_cookie Response.init name value (str "/") none).cookies =
      [(lowerStr name, cookie_string name value (str "/") none)] ∧
    dictGet? (parse_cookies [(str "cookie", cookie_string name value (str "/") none)]) name =
      some value := by
  constructor
  · simp [set_cookie, dictSet, Response.init]
  · have hS : cookie_string name value (str "/") none =
        (name ++ '=' :: value) ++ ';' :: str " Path=/" := by
      unfold cookie_string
      simp [str]
    have hall : ∀ c ∈ name ++ '=' :: value, (fun c => decide (c = ';')) c = false := by
      intro c hc
      simp only [decide_eq_false_iff_not]
      rintro rfl
      rcases List.mem_append.mp hc with h | h
      · exact hns h
      · rcases List.mem_cons.mp h with h | h
        · exact absurd h (by decide)
        · exact hvs h
    have hcpA : cookie_pair [] (name ++ '=' :: value) = [(name, value)] := by
      unfold cookie_pair
      rw [if_pos (by simp : '=' ∈ name ++ '=' :: value)]
      rw [hstrip, splitFirst?_single value hne]
      simp [dictSet]
    have hcpB : cookie_pair [(name, value)] (str " Path=/") =
        dictSet [(name, value)] (str "Path") (str "/") := rfl
    have hds : dictSet [(name, value)] (str "Path") (str "/") =
        [(name, value), (str "Path", str "/")] := by
      unfold dictSet
      rw [if_neg (by simp [hnP])]
      rfl
    unfold parse_cookies
    rw [show dictGetD [(str "cookie", cookie_string name value (str "/") none)] (str "cookie") [] =
        cookie_string name value (str "/") none from rfl]
    rw [hS, splitOnPred_append (';' :: str " Path=/") hall]
    rw [show splitOnPred (fun c => decide (c = ';')) (';' :: str " Path=/") =
        [[], str " Path=/"] from by decide]
    simp only [consMany, List.append_nil, List.foldl_cons, List.foldl_nil]
    rw [hcpA, hcpB, hds]
    unfold dictGet?
    rw [List.find?_cons_of_pos _ (by simp)]
    rfl

theorem cookie_roundtrip_witness :
    ('=' ∉ str "user") ∧ (';' ∉ str "user") ∧ (';' ∉ str "42") ∧
    str "user" ≠ str "Path" ∧
    pyStrip (str "user" ++ '=' :: str "42") = str "user" ++ '=' :: str "42" ∧
    ((set_cookie Response.init (str "user") (str "42") (str "/") none).cookies =
      [(lowerStr (str "user"), cookie_string (str "user") (str "42") (str "/") none)] ∧
    dictGet? (parse_cookies [(str "cookie", cookie_string (str "user") (str "42") (str "/") none)])
        (str "user") = some (str "42")) :=
  ⟨by decide, by decide, by decide, by decide, by decide,
    cookie_roundtrip (str "user") (str "42") (by decide) (by decide) (by decide)
      (by decide) (by decide)⟩

/-- Claim C8, refuted as stated: for the cookie name "n" and value "a;b",
serializing with the cookie-set operation and parsing the result through the
cookie parser binds "n" to "a", not to the original value "a;b". -/
theorem cookie_roundtrip_counterexample :
    dictGet? (parse_cookies [(str "cookie", cookie_string (str "n") (str "a;b") (str "/") none)])
        (str "n") = some (str "a") ∧
    (some (str "a") : Option Str) ≠ some (str "a;b") :=
  ⟨rfl, by decide⟩

/-- Claim C1 (amended): a raw request whose first line does not split into
exactly three whitespace-separated tokens makes request-line extraction
return absent method, path and version; the connection then sends the 500
Internal Server Error envelope (the pipeline raises an `AttributeError` on
the absent path), not the 404 envelope. -/
theorem malformed_request_line_sends_500 (guess : Str → Option Str) (fs : FS) (now : Str)
    (raw : Str) (routes : Routes)
    (hraw : raw ≠ [])
    (hm : (pySplitWs (firstLine raw)).length ≠ 3) :
    extract_request_line raw = (none, none, none) ∧
    ∃ m, handle_client guess fs now raw routes =
      some (build_error_response 500 (str "Internal Server Error: " ++ m)) := by
  have hext : extract_request_line raw = (none, none, none) := by
    unfold extract_request_line
    rw [if_neg hraw]
    match hsp : pySplitWs (firstLine raw) with
    | [] => rfl
    | [a] => rfl
    | [a, b] => rfl
    | [a, b, c] => rw [hsp] at hm; simp at hm
    | a :: b :: c :: d :: ds => rfl
  refine ⟨hext, ?_⟩
  cases routes with
  | nil =>
    have hprep : Request.prepare raw [] = .ok
        { method := none, path := none, version := none,
          headers := prepare_headers raw,
          cookies := parse_cookies (prepare_headers raw),
          body := [], hook := none } := by
      unfold Request.prepare
      rw [hext]
      simp [route_lookup, Except.map]
    refine ⟨msg_attr_endswith, ?_⟩
    unfold handle_client
    rw [if_neg hraw]
    unfold handle_pipeline
    rw [hprep]
    simp [Except.bind, Except.map, build_response, static_serve, contentTruthy, Response.init]
  | cons r rs =>
    have hprep : Request.prepare raw (r :: rs) = .error (.exc msg_attr_split) := by
      unfold Request.prepare
      rw [hext]
      simp [route_lookup, Except.map]
    refine ⟨msg_attr_split, ?_⟩
    unfold handle_client
    rw [if_neg hraw]
    unfold handle_pipeline
    rw [hprep]
    simp [Except.bind]

theorem malformed_request_line_sends_500_witness :
    (str "BAD\r\n\r\n" ≠ []) ∧
    (pySplitWs (firstLine (str "BAD\r\n\r\n"))).length ≠ 3 ∧
    (extract_request_line (str "BAD\r\n\r\n") = (none, none, none) ∧
      ∃ m, handle_client guess0 fs0 [] (str "BAD\r\n\r\n") [] =
        some (build_error_response 500 (str "Internal Server Error: " ++ m))) :=
  ⟨by decide, by decide,
    malformed_request_line_sends_500 guess0 fs0 [] (str "BAD\r\n\r\n") [] (by decide) (by decide)⟩

/-- Claim C1, refuted as stated: the malformed request "BAD" yields the 500
Internal Server Error envelope, which is not the fixed 404 envelope. -/
theorem malformed_request_404_counterexample :
    handle_client guess0 fs0 [] (str "BAD\r\n\r\n") [] =
      some (build_error_response 500 (str "Internal Server Error: " ++ msg_attr_endswith)) ∧
    build_error_response 500 (str "Internal Server Error: " ++ msg_attr_endswith) ≠ build_notfound ∧
    firstLine (build_error_response 500 (str "Internal Server Error: " ++ msg_attr_endswith)) ≠
      str "HTTP/1.1 404 Not Found" :=
  ⟨rfl, by decide, by decide⟩

theorem consMany_drop (l : Str) (xs : List Str) :
    (consMany l xs).drop 1 = xs.drop 1 := by
  cases xs <;> simp [consMany]

/-- Claim C9: a request whose path token is exactly "/" is treated
identically to the same request with path token "/index.html": the rewrite
happens unconditionally at parse time (request-line extraction), before
route lookup, so parsing and the entire connection handling coincide for the
two buffers. -/
theorem root_path_rewrite_equiv (line1 line2 tail m v : Str) (routes : Routes)
    (hb1 : ∀ c ∈ line1, isLineBreak c = false)
    (hb2 : ∀ c ∈ line2, isLineBreak c = false)
    (ht1 : pySplitWs line1 = [m, str "/", v])
    (ht2 : pySplitWs line2 = [m, str "/index.html", v])
    (htail : firstLine tail = []) :
    extract_request_line (line1 ++ tail) = (some m, some (str "/index.html"), some v) ∧
    Request.prepare (line1 ++ tail) routes = Request.prepare (line2 ++ tail) routes ∧
    ∀ guess fs now, handle_client guess fs now (line1 ++ tail) routes =
      handle_client guess fs now (line2 ++ tail) routes := by
  have hne1 : line1 ≠ [] := by
    intro h
    rw [h, show pySplitWs [] = [] from rfl] at ht1
    simp at ht1
  have hne2 : line2 ≠ [] := by
    intro h
    rw [h, show pySplitWs [] = [] from rfl] at ht2
    simp at ht2
  have hraw1 : line1 ++ tail ≠ [] := by simp [hne1]
  have hraw2 : line2 ++ tail ≠ [] := by simp [hne2]
  have hcr1 : '\r' ∉ line1 := fun h => absurd (hb1 '\r' h) (by decide)
  have hcr2 : '\r' ∉ line2 := fun h => absurd (hb2 '\r' h) (by decide)
  have hfl1 : firstLine (line1 ++ tail) = line1 := firstLine_append tail hb1 htail
  have hfl2 : firstLine (line2 ++ tail) = line2 := firstLine_append tail hb2 htail
  have hext1 : extract_request_line (line1 ++ tail) =
      (some m, some (str "/index.html"), some v) := by
    unfold extract_request_line
    rw [if_neg hraw1, hfl1, ht1]
    simp
  have hext2 : extract_request_line (line2 ++ tail) =
      (some m, some (str "/index.html"), some v) := by
    unfold extract_request_line
    rw [if_neg hraw2, hfl2, ht2]
    simp [show ¬(str "/index.html" = str "/") from by decide]
  have hheaders : prepare_headers (line1 ++ tail) = prepare_headers (line2 ++ tail) := by
    unfold prepare_headers
    rw [splitCRLF_append tail hcr1, splitCRLF_append tail hcr2, consMany_drop, consMany_drop]
  have hbody : extract_body (line1 ++ tail) = extract_body (line2 ++ tail) := by
    unfold extract_body
    rw [splitFirst?_append (str "\n\r\n") tail hcr1, splitFirst?_append (str "\n\r\n") tail hcr2]
    cases splitFirst? '\r' (str "\n\r\n") tail <;> simp
  have hprep : Request.prepare (line1 ++ tail) routes =
      Request.prepare (line2 ++ tail) routes := by
    unfold Request.prepare
    rw [hext1, hext2]
    simp only [hheaders, hbody]
  refine ⟨hext1, hprep, ?_⟩
  intro guess fs now
  unfold handle_client
  rw [if_neg hraw1, if_neg hraw2]
  unfold handle_pipeline
  rw [hprep]

theorem root_path_rewrite_equiv_witness :
    (∀ c ∈ str "GET / HTTP/1.1", isLineBreak c = false) ∧
    (∀ c ∈ str "GET /index.html HTTP/1.1", isLineBreak c = false) ∧
    pySplitWs (str "GET / HTTP/1.1") = [str "GET", str "/", str "HTTP/1.1"] ∧
    pySplitWs (str "GET /index.html HTTP/1.1") = [str "GET", str "/index.html", str "HTTP/1.1"] ∧
    firstLine (str "\r\nHost: x\r\n\r\n") = [] ∧
    (extract_request_line (str "GET / HTTP/1.1" ++ str "\r\nHost: x\r\n\r\n") =
        (some (str "GET"), some (str "/index.html"), some (str "HTTP/1.1")) ∧
      Request.prepare (str "GET / HTTP/1.1" ++ str "\r\nHost: x\r\n\r\n") [] =
        Request.prepare (str "GET /index.html HTTP/1.1" ++ str "\r\nHost: x\r\n\r\n") [] ∧
      ∀ guess fs now,
        handle_client guess fs now (str "GET / HTTP/1.1" ++ str "\r\nHost: x\r\n\r\n") [] =
          handle_client guess fs now (str "GET /index.html HTTP/1.1" ++ str "\r\nHost: x\r\n\r\n") []) :=
  ⟨by decide, by decide, by decide, by decide, by decide,
    root_path_rewrite_equiv (str "GET / HTTP/1.1") (str "GET /index.html HTTP/1.1")
      (str "\r\nHost: x\r\n\r\n") (str "GET") (str "HTTP/1.1") []
      (by decide) (by decide) (by decide) (by decide) (by decide)⟩

/-- Routes table registering a handler under the bare path "/". -/
def routesRoot : Routes := [((str "GET", str "/"), hookDict)]

/-- Claim C10 (amended): the parsed path is never the bare "/" — the rewrite
to "/index.html" happens during request-line extraction, before route lookup
— so a route registered under "/" is never matched through a bare "/" path
token; but the rewrite precedes query stripping, so a request line with path
"/?query" produces the route-lookup key "/" and does dispatch a route
registered under "/". -/
theorem root_route_dispatch (raw : Str) :
    (extract_request_line raw).2.1 ≠ some (str "/") ∧
    ∀ (routes : Routes) (h : Hook),
      routesGet? routes (some (str "GET")) (str "/") = some h →
      (Request.prepare (str "GET /?x=1 HTTP/1.1\r\n\r\n") routes).map Request.hook =
        .ok (some h) := by
  constructor
  · unfold extract_request_line
    by_cases hraw : raw = []
    · rw [if_pos hraw]
      simp
    · rw [if_neg hraw]
      rcases hsp : pySplitWs (firstLine raw) with _ | ⟨a, _ | ⟨b, _ | ⟨c, _ | ds⟩⟩⟩
      · simp
      · simp
      · simp
      · by_cases hb : b = str "/"
        · simp [hb, show ¬(str "/index.html" = str "/") from by decide]
        · simp [hb]
      · simp
  · intro routes h hfind
    have hroutes : routes ≠ [] := by
      intro hr
      rw [hr] at hfind
      simp [routesGet?] at hfind
    unfold Request.prepare
    rw [show extract_request_line (str "GET /?x=1 HTTP/1.1\r\n\r\n") =
        (some (str "GET"), some (str "/?x=1"), some (str "HTTP/1.1")) from rfl]
    unfold route_lookup
    cases routes with
    | nil => exact absurd rfl hroutes
    | cons r rs =>
      simp only [Except.map]
      rw [show stripQuery (str "/?x=1") = str "/" from rfl, hfind]

theorem root_route_dispatch_witness :
    routesGet? routesRoot (some (str "GET")) (str "/") = some hookDict ∧
    (Request.prepare (str "GET /?x=1 HTTP/1.1\r\n\r\n") routesRoot).map Request.hook =
      .ok (some hookDict) :=
  ⟨rfl, (root_route_dispatch []).2 routesRoot hookDict rfl⟩

/-- Claim C10, refuted as stated: a request line "GET /?a=1 HTTP/1.1" is
matched against the route table under the key "/" — query stripping happens
after the "/"-rewrite — so a route registered under exactly "/" is
dispatched. -/
theorem root_route_lookup_counterexample :
    (Request.prepare (str "GET /?a=1 HTTP/1.1\r\n\r\n") [((str "GET", str "/"), hookRespNone)]).map
      (fun r => r.hook.isSome) = .ok true ∧
    stripQuery (str "/?a=1") = str "/" :=
  ⟨rfl, rfl⟩
